import Mathlib

/-!
Verification of the protocol engine in
`src/thonny/plugins/micropython/os_backend.py` (class `MicroPythonOsBackend`).

Bytes are modelled as natural numbers, byte strings as `List Nat`.

The transport (`thonny.plugins.micropython.connection`, not part of the
sources) is modelled from the spec, section 4.1:
  * `soft_read_until(closers, timeout)` returns whatever bytes are available
    within the timeout and an empty result on timeout.  A whole run of the
    read loop is therefore driven by a schedule `reads : List (List Nat)`:
    the k-th read primitive invocation returns the k-th element of the
    schedule, and an exhausted schedule yields only empty reads (an idle
    device).
  * `read_until(marker)` blocks until the marker appears in the stream and
    returns the bytes up to and including the marker (the callers in
    `os_backend.py` strip the marker from the result, and the spec's
    end-to-end scenario in section 8 requires the collected output to be the
    bytes before the marker, so the marker is part of the returned bytes);
    if the marker never appears the hard wait times out and the transport
    fails with its timeout error.
-/

namespace ThonnyOs

/-- Modelled from the spec: `LF` is imported from
`thonny.plugins.micropython.bare_metal_backend`, which is not in the sources;
it is the line-feed closer, the single byte 10. -/
def LF : List Nat := [10]

/-- Modelled from the spec: `NORMAL_PROMPT` is imported from
`thonny.plugins.micropython.bare_metal_backend`, which is not in the sources.
It is the literal prompt string used as the readiness marker, the MicroPython
REPL prompt ">>> " (the spec's section 8 scenario feeds the marker's first
three bytes separately, so the marker has four bytes). -/
def NORMAL_PROMPT : List Nat := [62, 62, 62, 32]

/-- Modelled from the spec: `EOT` is imported from
`thonny.plugins.micropython.backend`, which is not in the sources; it is the
end-of-transmission control byte 4. -/
def EOT : List Nat := [4]

/-- `PASTE_MODE_CMD = b"\x05"` (os_backend.py line 42): the begin-block-mode
control byte. -/
def PASTE_MODE_CMD : List Nat := [5]

/-- `PASTE_MODE_LINE_PREFIX = b"=== "` (os_backend.py line 43): the banner
line prefix recognized as confirmation of block mode entry.  (The source
constant's name is kept in this comment; the Lean name differs.) -/
def PASTE_MODE_BANNER : List Nat := [61, 61, 61, 32]

/-- The literal `"#uuu"` appended to the script and awaited back
(os_backend.py lines 151-152), as bytes. -/
def SENTINEL : List Nat := [35, 117, 117, 117]

/-- `script + "#uuu"` — the payload written in paste mode
(os_backend.py line 151). -/
def submission_payload (script : List Nat) : List Nat := script ++ SENTINEL

/-- Modelled from the spec: `ends_overlap` is imported from
`thonny.plugins.micropython.backend`, which is not in the sources.  Per the
spec (section 4.2 step 3 and the glossary), it holds when the tail of `data`
is a non-empty proper prefix of `marker`. -/
def ends_overlap (data marker : List Nat) : Bool :=
  (List.range marker.length).any fun i => decide (1 ≤ i) && (marker.take i).isSuffixOf data

/-- The verdict of the boundary detector on the accumulated buffer: the
branches of the `if`/`elif` chain in `_forward_output_until_active_prompt`
(os_backend.py lines 179-203). -/
inductive Classification where
  | flushLine
  | boundary (out : List Nat)
  | overlap
  | flushPlain
deriving DecidableEq, Repr

/-- The `if`/`elif` chain of `_forward_output_until_active_prompt`
(os_backend.py lines 179-203) applied to the accumulated `pending` buffer:
ends with `LF` → flush the whole buffer; ends with `NORMAL_PROMPT` → the
boundary, with the marker stripped from the flushed bytes (line 184);
`ends_overlap` with the prompt → ambiguous overlap; otherwise flush the
whole buffer. -/
def classify (pending : List Nat) : Classification :=
  if LF.isSuffixOf pending then Classification.flushLine
  else if NORMAL_PROMPT.isSuffixOf pending then
    Classification.boundary (pending.take (pending.length - NORMAL_PROMPT.length))
  else if ends_overlap pending NORMAL_PROMPT then Classification.overlap
  else Classification.flushPlain

/-- Observable events of the backend: servicing a side command, a read
primitive returning a chunk, a blocking `read_until`, a write, a call of the
output consumer (`flush`), reporting the prompt boundary, and the session
orchestration events of `_cmd_Run`. -/
inductive Ev where
  | service (r : Nat)
  | read (chunk : List Nat)
  | readUntil (marker got : List Nat)
  | write (data : List Nat)
  | flush (unit : List Nat)
  | promptFound
  | closeConnection
  | createConnection
  | hideTrailingOutput (text : List Nat)
  | prepareHelpers
  | updateCwd
deriving DecidableEq, Repr

/-- The result of the next read primitive under a schedule: the schedule's
head, or the empty chunk once the schedule is exhausted (an idle device, a
timed-out read).  Also used for the side-command schedule: the requests
pending at the current iteration's check. -/
def nextChunk : List (List Nat) → List Nat
  | [] => []
  | c :: _ => c

/-- `_forward_output_until_active_prompt` (os_backend.py lines 159-203).

One fuel unit is one iteration of the `while True` loop.  Each iteration:
service the side commands pending at this iteration (`_check_for_side_commands`,
line 168; modelled from the spec as draining the requests scheduled for this
iteration in `sides`), then `soft_read_until` (line 171) returns the next
element of `reads` (empty when exhausted — an idle device).  An empty read
`continue`s (lines 174-175); otherwise the chunk is appended to `pending`
(line 177) and the buffer is classified: flush-on-line (179-181),
flush-on-prompt and return (183-186), overlap with a one-byte
`soft_read(1, ...)` follow-up — flush on an empty follow-up, otherwise append
and withhold (188-197) — or flush-plain (199-203).

Returns the event trace and whether the loop returned (reached the prompt)
within the given fuel.  Every `output_consumer(...)` call is an `Ev.flush`. -/
def run : Nat → List Nat → List (List Nat) → List (List Nat) → List Ev × Bool
  | 0, _, _, _ => ([], false)
  | fuel + 1, pending, reads, sides =>
    if (nextChunk reads) = [] then
      let r := run fuel pending reads.tail sides.tail
      (((nextChunk sides).map Ev.service) ++ Ev.read (nextChunk reads) :: r.1, r.2)
    else
      match classify (pending ++ nextChunk reads) with
      | Classification.flushLine =>
        let r := run fuel [] reads.tail sides.tail
        (((nextChunk sides).map Ev.service) ++
          Ev.read (nextChunk reads) :: Ev.flush (pending ++ nextChunk reads) :: r.1, r.2)
      | Classification.boundary out =>
        (((nextChunk sides).map Ev.service) ++
          [Ev.read (nextChunk reads), Ev.flush out, Ev.promptFound], true)
      | Classification.overlap =>
        if (nextChunk reads.tail) = [] then
          let r := run fuel [] reads.tail.tail sides.tail
          (((nextChunk sides).map Ev.service) ++
            Ev.read (nextChunk reads) :: Ev.read (nextChunk reads.tail) ::
              Ev.flush (pending ++ nextChunk reads) :: r.1, r.2)
        else
          let r := run fuel (pending ++ nextChunk reads ++ nextChunk reads.tail)
            reads.tail.tail sides.tail
          (((nextChunk sides).map Ev.service) ++
            Ev.read (nextChunk reads) :: Ev.read (nextChunk reads.tail) :: r.1, r.2)
      | Classification.flushPlain =>
        let r := run fuel [] reads.tail sides.tail
        (((nextChunk sides).map Ev.service) ++
          Ev.read (nextChunk reads) :: Ev.flush (pending ++ nextChunk reads) :: r.1, r.2)

/-- The payload of a consumer call, if the event is one. -/
def flushOf : Ev → Option (List Nat)
  | Ev.flush u => some u
  | _ => none

/-- The chunk returned by a soft read, if the event is one. -/
def readOf : Ev → Option (List Nat)
  | Ev.read c => some c
  | _ => none

/-- The serviced side command, if the event is one. -/
def serviceOf : Ev → Option Nat
  | Ev.service r => some r
  | _ => none

/-- All units flushed to the output consumer, in order. -/
def flushesOf (tr : List Ev) : List (List Nat) := tr.filterMap flushOf

/-- All chunks returned by the soft reads, in order. -/
def readsOf (tr : List Ev) : List (List Nat) := tr.filterMap readOf

/-- All side commands serviced, in order. -/
def servicesOf (tr : List Ev) : List Nat := tr.filterMap serviceOf

/-- Whether the event is the prompt-boundary report. -/
def isPromptFound : Ev → Bool
  | Ev.promptFound => true
  | _ => false

/-- How many times the loop reported the prompt boundary. -/
def promptCount (tr : List Ev) : Nat := (tr.filter isPromptFound).length

/-- Modelled from the spec: the blocking `read_until` of the transport
(`thonny.plugins.micropython.connection`, not in the sources).  Splits the
device's byte stream at the first occurrence of `marker`, returning the bytes
up to and including the marker together with the remainder of the stream;
`none` when the marker never occurs (the hard wait then times out). -/
def splitAtMarker (marker : List Nat) : List Nat → Option (List Nat × List Nat)
  | [] => none
  | b :: rest =>
    if marker.isPrefixOf (b :: rest) then some (marker, (b :: rest).drop marker.length)
    else
      match splitAtMarker marker rest with
      | some (pre, post) => some (b :: pre, post)
      | none => none

/-- Modelled from the spec: the transport's failure on a hard wait is its
timeout error (spec section 4.1: `read_until ... fails with TimeoutError or
TransportError`); `_execute_with_consumer` installs no handler, so this is
what its caller sees. -/
inductive ExecError where
  | timeout
deriving DecidableEq, Repr

/-- `_execute_with_consumer` (os_backend.py lines 139-157) over a scripted
device byte stream: write `PASTE_MODE_CMD`; `read_until` the paste-mode
banner (`PASTE_MODE_LINE_PREFIX` in the source, line 150); write
`script + "#uuu"`; `read_until b"#uuu"`; write `EOT`; `read_until b"\n"`;
`read_until NORMAL_PROMPT`, strip the marker (line 156) and call the output
consumer once with the result (line 157).  Any `read_until` whose marker
never occurs in the remaining stream fails with the transport's timeout
error and no later step runs. -/
def execute_with_consumer (script stream : List Nat) : Except ExecError (List Ev) :=
  match splitAtMarker PASTE_MODE_BANNER stream with
  | none => Except.error ExecError.timeout
  | some (t1, s1) =>
    match splitAtMarker SENTINEL s1 with
    | none => Except.error ExecError.timeout
    | some (t2, s2) =>
      match splitAtMarker LF s2 with
      | none => Except.error ExecError.timeout
      | some (t3, s3) =>
        match splitAtMarker NORMAL_PROMPT s3 with
        | none => Except.error ExecError.timeout
        | some (t4, _) =>
          Except.ok
            [Ev.write PASTE_MODE_CMD, Ev.readUntil PASTE_MODE_BANNER t1,
             Ev.write (submission_payload script), Ev.readUntil SENTINEL t2,
             Ev.write EOT, Ev.readUntil LF t3,
             Ev.readUntil NORMAL_PROMPT t4,
             Ev.flush (t4.take (t4.length - NORMAL_PROMPT.length))]

/-- Result of `_process_until_initial_prompt` (os_backend.py lines 121-131):
the forwarded units are collected by the local `collect_output` closure into
the welcome text; nothing is handed to the message sink by this function, so
its sink deliveries are recorded as the empty list. -/
structure AttachResult where
  welcome : List Nat
  sinkDeliveries : List (List Nat)
  reachedPrompt : Bool
deriving DecidableEq, Repr

/-- `_process_until_initial_prompt` (os_backend.py lines 121-131): run the
forward loop with the local collector as consumer; the joined units become
`_original_welcome_text` (byte level; the text decoding and CRLF
normalisation of line 129 are outside the byte model). -/
def process_until_initial_prompt (fuel : Nat) (reads sides : List (List Nat)) : AttachResult :=
  { welcome := ((flushesOf (run fuel [] reads sides).1)).flatten
    sinkDeliveries := []
    reachedPrompt := (run fuel [] reads sides).2 }

/-- Result of `_cmd_Run`: its event trace and what reached the sink
(`_send_output`). -/
structure RunCmdResult where
  events : List Ev
  sink : List (List Nat)
deriving DecidableEq, Repr

/-- `_cmd_Run` (os_backend.py lines 216-238): close the connection, create a
new one, forward output until the active prompt **with `_send_output` — the
sink — as consumer** (line 230), then, once the forward loop returns, send
the `HideTrailingOutput` event carrying `_original_welcome_text` (lines
232-234) and run `_prepare_helpers`/`_update_cwd` (lines 236-237).  The
argument handling of lines 219-227 does not touch the output path and is not
modelled. -/
def cmd_Run (fuel : Nat) (reads sides : List (List Nat)) (originalWelcome : List Nat) :
    RunCmdResult :=
  { events :=
      [Ev.closeConnection, Ev.createConnection] ++ (run fuel [] reads sides).1 ++
        (if (run fuel [] reads sides).2 then
          [Ev.hideTrailingOutput originalWelcome, Ev.prepareHelpers, Ev.updateCwd]
        else [])
    sink := flushesOf (run fuel [] reads sides).1 }

/-! ### Helper lemmas about the event extractors -/

@[simp] theorem flushesOf_nil : flushesOf [] = [] := rfl

@[simp] theorem flushesOf_append (l₁ l₂ : List Ev) :
    flushesOf (l₁ ++ l₂) = flushesOf l₁ ++ flushesOf l₂ :=
  List.filterMap_append l₁ l₂ flushOf

@[simp] theorem flushesOf_cons_read (c : List Nat) (tr : List Ev) :
    flushesOf (Ev.read c :: tr) = flushesOf tr := rfl

@[simp] theorem flushesOf_cons_flush (u : List Nat) (tr : List Ev) :
    flushesOf (Ev.flush u :: tr) = u :: flushesOf tr := rfl

@[simp] theorem flushesOf_cons_promptFound (tr : List Ev) :
    flushesOf (Ev.promptFound :: tr) = flushesOf tr := rfl

@[simp] theorem flushesOf_map_service (l : List Nat) :
    flushesOf (l.map Ev.service) = [] := by
  induction l with
  | nil => rfl
  | cons a l ih => exact ih

@[simp] theorem readsOf_nil : readsOf [] = [] := rfl

@[simp] theorem readsOf_append (l₁ l₂ : List Ev) :
    readsOf (l₁ ++ l₂) = readsOf l₁ ++ readsOf l₂ :=
  List.filterMap_append l₁ l₂ readOf

@[simp] theorem readsOf_cons_read (c : List Nat) (tr : List Ev) :
    readsOf (Ev.read c :: tr) = c :: readsOf tr := rfl

@[simp] theorem readsOf_cons_flush (u : List Nat) (tr : List Ev) :
    readsOf (Ev.flush u :: tr) = readsOf tr := rfl

@[simp] theorem readsOf_cons_promptFound (tr : List Ev) :
    readsOf (Ev.promptFound :: tr) = readsOf tr := rfl

@[simp] theorem readsOf_map_service (l : List Nat) :
    readsOf (l.map Ev.service) = [] := by
  induction l with
  | nil => rfl
  | cons a l ih => exact ih

@[simp] theorem servicesOf_nil : servicesOf [] = [] := rfl

@[simp] theorem servicesOf_append (l₁ l₂ : List Ev) :
    servicesOf (l₁ ++ l₂) = servicesOf l₁ ++ servicesOf l₂ :=
  List.filterMap_append l₁ l₂ serviceOf

@[simp] theorem servicesOf_cons_read (c : List Nat) (tr : List Ev) :
    servicesOf (Ev.read c :: tr) = servicesOf tr := rfl

@[simp] theorem servicesOf_cons_flush (u : List Nat) (tr : List Ev) :
    servicesOf (Ev.flush u :: tr) = servicesOf tr := rfl

@[simp] theorem servicesOf_cons_promptFound (tr : List Ev) :
    servicesOf (Ev.promptFound :: tr) = servicesOf tr := rfl

@[simp] theorem servicesOf_map_service (l : List Nat) :
    servicesOf (l.map Ev.service) = l := by
  induction l with
  | nil => rfl
  | cons a l ih =>
    show a :: servicesOf (l.map Ev.service) = a :: l
    rw [ih]

@[simp] theorem promptCount_nil : promptCount [] = 0 := rfl

@[simp] theorem promptCount_append (l₁ l₂ : List Ev) :
    promptCount (l₁ ++ l₂) = promptCount l₁ + promptCount l₂ := by
  simp [promptCount, List.filter_append]

@[simp] theorem promptCount_cons_read (c : List Nat) (tr : List Ev) :
    promptCount (Ev.read c :: tr) = promptCount tr := rfl

@[simp] theorem promptCount_cons_flush (u : List Nat) (tr : List Ev) :
    promptCount (Ev.flush u :: tr) = promptCount tr := rfl

@[simp] theorem promptCount_cons_promptFound (tr : List Ev) :
    promptCount (Ev.promptFound :: tr) = promptCount tr + 1 := by
  simp [promptCount, isPromptFound, List.filter_cons]

@[simp] theorem promptCount_map_service (l : List Nat) :
    promptCount (l.map Ev.service) = 0 := by
  induction l with
  | nil => rfl
  | cons a l ih => exact ih

/-! ### Structural lemmas about the read loop -/

/-- On an exhausted read schedule (an idle device) the loop never returns and
never calls the output consumer: every iteration takes the
`if not new_data: continue` branch. -/
theorem run_idle (fuel : Nat) : ∀ (pending : List Nat) (sides : List (List Nat)),
    (run fuel pending [] sides).2 = false ∧ flushesOf (run fuel pending [] sides).1 = [] := by
  induction fuel with
  | zero => exact fun _ _ => ⟨rfl, rfl⟩
  | succ n ih =>
    intro pending sides
    refine ⟨(ih pending sides.tail).1, ?_⟩
    show flushesOf (((nextChunk sides).map Ev.service) ++
      Ev.read [] :: (run n pending [] sides.tail).1) = []
    simp [(ih pending sides.tail).2]

/-- Every iteration of the loop first services the pending side commands and
then performs the read: the trace of a non-zero-fuel run always starts with
the service events followed by the read event. -/
theorem run_succ_shape (fuel : Nat) (pending : List Nat) (reads sides : List (List Nat)) :
    ∃ rest, (run (fuel+1) pending reads sides).1
      = ((nextChunk sides).map Ev.service) ++ Ev.read (nextChunk reads) :: rest := by
  by_cases h0 : (nextChunk reads) = []
  · refine ⟨(run fuel pending reads.tail sides.tail).1, ?_⟩
    simp only [run, if_pos h0]
  · cases hc : classify (pending ++ nextChunk reads) with
    | flushLine =>
      refine ⟨Ev.flush (pending ++ nextChunk reads) :: (run fuel [] reads.tail sides.tail).1, ?_⟩
      simp only [run, if_neg h0, hc]
    | boundary out =>
      refine ⟨[Ev.flush out, Ev.promptFound], ?_⟩
      simp only [run, if_neg h0, hc]
    | overlap =>
      by_cases h1 : (nextChunk reads.tail) = []
      · refine ⟨Ev.read (nextChunk reads.tail) :: Ev.flush (pending ++ nextChunk reads) ::
          (run fuel [] reads.tail.tail sides.tail).1, ?_⟩
        simp only [run, if_neg h0, hc, if_pos h1]
      · refine ⟨Ev.read (nextChunk reads.tail) ::
          (run fuel (pending ++ nextChunk reads ++ nextChunk reads.tail) reads.tail.tail
            sides.tail).1, ?_⟩
        simp only [run, if_neg h0, hc, if_neg h1]
    | flushPlain =>
      refine ⟨Ev.flush (pending ++ nextChunk reads) :: (run fuel [] reads.tail sides.tail).1, ?_⟩
      simp only [run, if_neg h0, hc]

/-- Unfolding of one loop iteration: the `continue` branch on an empty read
(os_backend.py lines 174-175). -/
theorem run_succ_empty {fuel : Nat} {pending : List Nat} {reads sides : List (List Nat)}
    (h0 : nextChunk reads = []) :
    run (fuel+1) pending reads sides
      = (((nextChunk sides).map Ev.service) ++
          Ev.read (nextChunk reads) :: (run fuel pending reads.tail sides.tail).1,
         (run fuel pending reads.tail sides.tail).2) := by
  simp only [run, if_pos h0]

/-- Unfolding of one loop iteration: the flush-on-line branch
(os_backend.py lines 179-181). -/
theorem run_succ_flushLine {fuel : Nat} {pending : List Nat} {reads sides : List (List Nat)}
    (h0 : ¬ nextChunk reads = [])
    (hc : classify (pending ++ nextChunk reads) = Classification.flushLine) :
    run (fuel+1) pending reads sides
      = (((nextChunk sides).map Ev.service) ++
          Ev.read (nextChunk reads) :: Ev.flush (pending ++ nextChunk reads) ::
            (run fuel [] reads.tail sides.tail).1,
         (run fuel [] reads.tail sides.tail).2) := by
  simp only [run, if_neg h0, hc]

/-- Unfolding of one loop iteration: the flush-on-prompt branch
(os_backend.py lines 183-186). -/
theorem run_succ_boundary {fuel : Nat} {pending out : List Nat} {reads sides : List (List Nat)}
    (h0 : ¬ nextChunk reads = [])
    (hc : classify (pending ++ nextChunk reads) = Classification.boundary out) :
    run (fuel+1) pending reads sides
      = (((nextChunk sides).map Ev.service) ++
          [Ev.read (nextChunk reads), Ev.flush out, Ev.promptFound], true) := by
  simp only [run, if_neg h0, hc]

/-- Unfolding of one loop iteration: the overlap branch whose bounded extra
read times out, flushing the whole buffer (os_backend.py lines 190-194). -/
theorem run_succ_overlap_flush {fuel : Nat} {pending : List Nat} {reads sides : List (List Nat)}
    (h0 : ¬ nextChunk reads = [])
    (hc : classify (pending ++ nextChunk reads) = Classification.overlap)
    (h1 : nextChunk reads.tail = []) :
    run (fuel+1) pending reads sides
      = (((nextChunk sides).map Ev.service) ++
          Ev.read (nextChunk reads) :: Ev.read [] ::
            Ev.flush (pending ++ nextChunk reads) ::
              (run fuel [] reads.tail.tail sides.tail).1,
         (run fuel [] reads.tail.tail sides.tail).2) := by
  simp only [run, if_neg h0, hc, if_pos h1]
  rw [h1]

/-- Unfolding of one loop iteration: the overlap branch whose bounded extra
read yields bytes, which are appended and withheld
(os_backend.py lines 195-197). -/
theorem run_succ_overlap_withhold {fuel : Nat} {pending : List Nat}
    {reads sides : List (List Nat)}
    (h0 : ¬ nextChunk reads = [])
    (hc : classify (pending ++ nextChunk reads) = Classification.overlap)
    (h1 : ¬ nextChunk reads.tail = []) :
    run (fuel+1) pending reads sides
      = (((nextChunk sides).map Ev.service) ++
          Ev.read (nextChunk reads) :: Ev.read (nextChunk reads.tail) ::
            (run fuel (pending ++ nextChunk reads ++ nextChunk reads.tail)
              reads.tail.tail sides.tail).1,
         (run fuel (pending ++ nextChunk reads ++ nextChunk reads.tail)
           reads.tail.tail sides.tail).2) := by
  simp only [run, if_neg h0, hc, if_neg h1]

/-- Unfolding of one loop iteration: the flush-plain branch
(os_backend.py lines 199-203). -/
theorem run_succ_flushPlain {fuel : Nat} {pending : List Nat} {reads sides : List (List Nat)}
    (h0 : ¬ nextChunk reads = [])
    (hc : classify (pending ++ nextChunk reads) = Classification.flushPlain) :
    run (fuel+1) pending reads sides
      = (((nextChunk sides).map Ev.service) ++
          Ev.read (nextChunk reads) :: Ev.flush (pending ++ nextChunk reads) ::
            (run fuel [] reads.tail sides.tail).1,
         (run fuel [] reads.tail sides.tail).2) := by
  simp only [run, if_neg h0, hc]

/-- The boundary verdict carries exactly the bytes before the marker: a
buffer classified `boundary out` equals `out ++ NORMAL_PROMPT`. -/
theorem classify_eq_boundary {p out : List Nat}
    (h : classify p = Classification.boundary out) : p = out ++ NORMAL_PROMPT := by
  unfold classify at h
  by_cases h1 : LF.isSuffixOf p
  · rw [if_pos h1] at h; cases h
  · rw [if_neg h1] at h
    by_cases h2 : NORMAL_PROMPT.isSuffixOf p
    · rw [if_pos h2] at h
      obtain ⟨t, ht⟩ := List.isSuffixOf_iff_suffix.mp h2
      subst ht
      rw [List.length_append, Nat.add_sub_cancel, List.take_left] at h
      injection h with h'
      rw [h']
    · rw [if_neg h2] at h
      by_cases h3 : ends_overlap p NORMAL_PROMPT
      · rw [if_pos h3] at h; cases h
      · rw [if_neg h3] at h; cases h

/-- Conservation of bytes across one whole run: if the loop returns, the
flushed units followed by the prompt marker are exactly the initial buffer
followed by everything the reads returned. -/
theorem run_roundtrip_aux (fuel : Nat) : ∀ (pending : List Nat) (reads sides : List (List Nat)),
    (run fuel pending reads sides).2 = true →
    (flushesOf (run fuel pending reads sides).1).flatten ++ NORMAL_PROMPT
      = pending ++ (readsOf (run fuel pending reads sides).1).flatten := by
  induction fuel with
  | zero => intro pending reads sides h; exact absurd h (by simp [run])
  | succ n ih =>
    intro pending reads sides h
    by_cases h0 : (nextChunk reads) = []
    · rw [run_succ_empty h0] at h ⊢
      have := ih pending reads.tail sides.tail h
      simp only [flushesOf_append, flushesOf_map_service, flushesOf_cons_read,
        readsOf_append, readsOf_map_service, readsOf_cons_read, List.nil_append,
        List.flatten_cons, List.append_assoc, h0] at this ⊢
      simpa using this
    · cases hc : classify (pending ++ nextChunk reads) with
      | flushLine =>
        rw [run_succ_flushLine h0 hc] at h ⊢
        have := ih [] reads.tail sides.tail h
        simp only [List.nil_append] at this
        simp only [flushesOf_append, flushesOf_map_service, flushesOf_cons_read,
          flushesOf_cons_flush, readsOf_append, readsOf_map_service, readsOf_cons_read,
          readsOf_cons_flush, List.nil_append, List.flatten_cons, List.append_assoc]
        rw [this]
      | boundary out =>
        rw [run_succ_boundary h0 hc]
        have hb := classify_eq_boundary hc
        simp only [flushesOf_append, flushesOf_map_service, flushesOf_cons_read,
          flushesOf_cons_flush, flushesOf_cons_promptFound, flushesOf_nil,
          readsOf_append, readsOf_map_service, readsOf_cons_read, readsOf_cons_flush,
          readsOf_cons_promptFound, readsOf_nil, List.nil_append,
          List.flatten_cons, List.flatten_nil, List.append_nil, List.append_assoc]
        rw [← hb]
      | overlap =>
        by_cases h1 : (nextChunk reads.tail) = []
        · rw [run_succ_overlap_flush h0 hc h1] at h ⊢
          have := ih [] reads.tail.tail sides.tail h
          simp only [List.nil_append] at this
          simp only [flushesOf_append, flushesOf_map_service, flushesOf_cons_read,
            flushesOf_cons_flush, readsOf_append, readsOf_map_service, readsOf_cons_read,
            readsOf_cons_flush, List.nil_append, List.flatten_cons, List.append_assoc, h1]
          rw [this]
        · rw [run_succ_overlap_withhold h0 hc h1] at h ⊢
          have := ih (pending ++ nextChunk reads ++ nextChunk reads.tail)
            reads.tail.tail sides.tail h
          simp only [List.append_assoc] at this
          simp only [flushesOf_append, flushesOf_map_service, flushesOf_cons_read,
            readsOf_append, readsOf_map_service, readsOf_cons_read, List.nil_append,
            List.flatten_cons, List.append_assoc]
          rw [this]
      | flushPlain =>
        rw [run_succ_flushPlain h0 hc] at h ⊢
        have := ih [] reads.tail sides.tail h
        simp only [List.nil_append] at this
        simp only [flushesOf_append, flushesOf_map_service, flushesOf_cons_read,
          flushesOf_cons_flush, readsOf_append, readsOf_map_service, readsOf_cons_read,
          readsOf_cons_flush, List.nil_append, List.flatten_cons, List.append_assoc]
        rw [this]

/-- The loop reports the prompt boundary exactly once if it returns, and
never otherwise. -/
theorem run_promptCount_aux (fuel : Nat) : ∀ (pending : List Nat) (reads sides : List (List Nat)),
    promptCount (run fuel pending reads sides).1
      = (if (run fuel pending reads sides).2 then 1 else 0) := by
  induction fuel with
  | zero => intro pending reads sides; simp [run]
  | succ n ih =>
    intro pending reads sides
    by_cases h0 : (nextChunk reads) = []
    · rw [run_succ_empty h0]
      simpa using ih pending reads.tail sides.tail
    · cases hc : classify (pending ++ nextChunk reads) with
      | flushLine =>
        rw [run_succ_flushLine h0 hc]
        simpa using ih [] reads.tail sides.tail
      | boundary out =>
        rw [run_succ_boundary h0 hc]
        simp
      | overlap =>
        by_cases h1 : (nextChunk reads.tail) = []
        · rw [run_succ_overlap_flush h0 hc h1]
          simpa using ih [] reads.tail.tail sides.tail
        · rw [run_succ_overlap_withhold h0 hc h1]
          simpa using ih (pending ++ nextChunk reads ++ nextChunk reads.tail)
            reads.tail.tail sides.tail
      | flushPlain =>
        rw [run_succ_flushPlain h0 hc]
        simpa using ih [] reads.tail sides.tail

/-- Stripping the marker from a buffer that ends with it leaves exactly the
bytes before the marker. -/
theorem take_sub_marker (pre : List Nat) :
    (pre ++ NORMAL_PROMPT).take ((pre ++ NORMAL_PROMPT).length - NORMAL_PROMPT.length) = pre := by
  rw [List.length_append, Nat.add_sub_cancel, List.take_left]

/-- `splitAtMarker` really splits at the first occurrence of the marker: the
taken part ends with the marker and taken and remainder recompose the
stream. -/
theorem splitAtMarker_spec (marker : List Nat) :
    ∀ s taken rest, splitAtMarker marker s = some (taken, rest) →
      ∃ pre, taken = pre ++ marker ∧ s = taken ++ rest := by
  intro s
  induction s with
  | nil => intro taken rest h; cases h
  | cons b bs ih =>
    intro taken rest h
    rw [splitAtMarker] at h
    by_cases hp : marker.isPrefixOf (b :: bs)
    · rw [if_pos hp] at h
      injection h with h'
      injection h' with h1 h2
      obtain ⟨t, ht⟩ := List.isPrefixOf_iff_prefix.mp hp
      refine ⟨[], by rw [← h1, List.nil_append], ?_⟩
      rw [← h1, ← h2, ← ht, List.drop_left]
    · rw [if_neg hp] at h
      cases hsp : splitAtMarker marker bs with
      | none => rw [hsp] at h; cases h
      | some pr =>
        rw [hsp] at h
        injection h with h'
        injection h' with h1 h2
        obtain ⟨pre0, hp1, hp2⟩ := ih pr.1 pr.2 (by rw [hsp])
        refine ⟨b :: pre0, ?_, ?_⟩
        · rw [← h1, hp1]; rfl
        · rw [← h1, ← h2, List.cons_append]
          rw [hp2]

/-- Shape of every successful submission (os_backend.py lines 149-157): the
exact write/`read_until` sequence, a single blocking collection read of
everything up to the prompt marker, and one consumer call with the marker
stripped. -/
theorem execute_ok_shape (script stream : List Nat) (tr : List Ev)
    (h : execute_with_consumer script stream = Except.ok tr) :
    ∃ t1 t2 t3 pre,
      tr = [Ev.write PASTE_MODE_CMD, Ev.readUntil PASTE_MODE_BANNER t1,
            Ev.write (submission_payload script), Ev.readUntil SENTINEL t2,
            Ev.write EOT, Ev.readUntil LF t3,
            Ev.readUntil NORMAL_PROMPT (pre ++ NORMAL_PROMPT), Ev.flush pre] := by
  unfold execute_with_consumer at h
  split at h
  · cases h
  rename_i t1 s1 e1
  split at h
  · cases h
  rename_i t2 s2 e2
  split at h
  · cases h
  rename_i t3 s3 e3
  split at h
  · cases h
  rename_i t4 s4 e4
  injection h with h'
  obtain ⟨pre, hpre, _⟩ := splitAtMarker_spec NORMAL_PROMPT _ _ _ e4
  refine ⟨t1, t2, t3, pre, ?_⟩
  rw [← h', hpre, take_sub_marker]

/-- On an idle device (every read empty) no side command is lost: the
serviced requests are exactly the scheduled ones, one schedule slot per
iteration. -/
theorem run_idle_services (fuel : Nat) : ∀ (pending : List Nat) (sides : List (List Nat)),
    servicesOf (run fuel pending [] sides).1 = (sides.take fuel).flatten := by
  induction fuel with
  | zero => intro pending sides; simp [run]
  | succ n ih =>
    intro pending sides
    rw [@run_succ_empty n pending [] sides rfl]
    cases sides with
    | nil =>
      show servicesOf (((nextChunk ([] : List (List Nat))).map Ev.service) ++
        Ev.read (nextChunk ([] : List (List Nat))) :: (run n pending [] ([] : List (List Nat)).tail).1)
        = (([] : List (List Nat)).take (n+1)).flatten
      simp [nextChunk, ih pending []]
    | cons rs rest =>
      show servicesOf (((nextChunk (rs :: rest)).map Ev.service) ++
        Ev.read (nextChunk ([] : List (List Nat))) :: (run n pending [] rest).1)
        = ((rs :: rest).take (n+1)).flatten
      simp [nextChunk, ih pending rest]

/-- The boundary detector maps a buffer that is exactly some bytes followed
by the prompt marker to the boundary verdict carrying those bytes. -/
theorem classify_append_prompt (pre : List Nat) :
    classify (pre ++ NORMAL_PROMPT) = Classification.boundary pre := by
  unfold classify
  have h1 : LF.isSuffixOf (pre ++ NORMAL_PROMPT) = false := by
    cases hL : LF.isSuffixOf (pre ++ NORMAL_PROMPT) with
    | false => rfl
    | true =>
      exfalso
      obtain ⟨t, ht⟩ := List.isSuffixOf_iff_suffix.mp hL
      have h10 : (t ++ LF).getLast? = some 10 := List.getLast?_concat t
      have h32 : (pre ++ NORMAL_PROMPT).getLast? = some 32 := by
        show (pre ++ [62,62,62,32]).getLast? = some 32
        rw [show pre ++ [62,62,62,32] = (pre ++ [62,62,62]) ++ [32] by simp]
        exact List.getLast?_concat _
      rw [ht] at h10
      rw [h10] at h32
      cases h32
  have hne : ¬ (LF.isSuffixOf (pre ++ NORMAL_PROMPT) = true) := by simp [h1]
  rw [if_neg hne]
  have hs : NORMAL_PROMPT.isSuffixOf (pre ++ NORMAL_PROMPT) = true :=
    List.isSuffixOf_iff_suffix.mpr (List.suffix_append pre NORMAL_PROMPT)
  rw [if_pos hs, take_sub_marker]

/-! ### The claims -/

/-- C1.  The claim says the read loop of `_forward_output_until_active_prompt`
never permanently blocks: once the pending buffer ends with the full prompt
marker, the loop terminates even if no further bytes ever arrive.  The code
violates this: on the schedule where `soft_read_until` returns `b"abc>>>"`,
the one-byte overlap follow-up read returns `b" "` — completing the marker in
the withheld buffer — and the device then stays idle, the loop never returns
and never flushes, for any number of iterations, because the appended
follow-up is not re-classified and an empty read only `continue`s.  The last
conjunct shows the withheld buffer does end with the full marker (it would be
classified as the boundary if it were ever re-classified). -/
theorem forward_output_blocks_after_completed_marker :
    ∀ fuel : Nat,
      (run fuel [] [[97,98,99,62,62,62],[32]] []).2 = false
      ∧ flushesOf (run fuel [] [[97,98,99,62,62,62],[32]] []).1 = []
      ∧ classify [97,98,99,62,62,62,32] = Classification.boundary [97,98,99] := by
  intro fuel
  refine ⟨?_, ?_, by decide⟩
  · cases fuel with
    | zero => rfl
    | succ n => exact (run_idle n [97,98,99,62,62,62,32] []).1
  · cases fuel with
    | zero => rfl
    | succ n => exact (run_idle n [97,98,99,62,62,62,32] []).2

/-- C2.  The claim says that when the tail of the pending buffer is a proper
prefix of the prompt marker and the bounded extra read yields the remaining
marker byte, the detector appends it and re-classifies, recognising the
boundary without requiring further bytes.  The code violates this: on the
schedule `b"x>>>"` then follow-up `b" "`, the buffer becomes `b"x>>> "` —
ending with the complete marker, as the last conjunct shows — yet for every
fuel the loop neither returns nor flushes anything, because after appending
the follow-up it waits for another non-empty read before re-classifying. -/
theorem overlap_followup_completing_marker_not_reclassified :
    ∀ fuel : Nat,
      (run fuel [] [[120,62,62,62],[32]] []).2 = false
      ∧ flushesOf (run fuel [] [[120,62,62,62],[32]] []).1 = []
      ∧ classify [120,62,62,62,32] = Classification.boundary [120] := by
  intro fuel
  refine ⟨?_, ?_, by decide⟩
  · cases fuel with
    | zero => rfl
    | succ n => exact (run_idle n [120,62,62,62,32] []).1
  · cases fuel with
    | zero => rfl
    | succ n => exact (run_idle n [120,62,62,62,32] []).2

/-- C3.  Round trip of the read loop: whenever
`_forward_output_until_active_prompt` returns, the concatenation of all units
flushed to the output consumer followed by the prompt marker equals the
concatenation of everything the reads consumed, and the terminal boundary is
reported exactly once. -/
theorem forward_output_roundtrip :
    ∀ (fuel : Nat) (reads sides : List (List Nat)) (tr : List Ev),
      run fuel [] reads sides = (tr, true) →
      (flushesOf tr).flatten ++ NORMAL_PROMPT = (readsOf tr).flatten
      ∧ promptCount tr = 1 := by
  intro fuel reads sides tr h
  have h1 : (run fuel [] reads sides).1 = tr := by rw [h]
  have h2 : (run fuel [] reads sides).2 = true := by rw [h]
  constructor
  · have := run_roundtrip_aux fuel [] reads sides h2
    rw [h1] at this
    simpa using this
  · have := run_promptCount_aux fuel [] reads sides
    rw [h1, h2] at this
    simpa using this

/-- Witness for C3 at the spec's end-to-end scenario: the device emits
`b"1\n"` and then the prompt marker. -/
theorem forward_output_roundtrip_witness :
    (flushesOf [Ev.read [49,10], Ev.flush [49,10], Ev.read [62,62,62,32],
      Ev.flush [], Ev.promptFound]).flatten ++ NORMAL_PROMPT
      = (readsOf [Ev.read [49,10], Ev.flush [49,10], Ev.read [62,62,62,32],
          Ev.flush [], Ev.promptFound]).flatten
    ∧ promptCount [Ev.read [49,10], Ev.flush [49,10], Ev.read [62,62,62,32],
        Ev.flush [], Ev.promptFound] = 1 :=
  forward_output_roundtrip 2 [[49,10],[62,62,62,32]] []
    [Ev.read [49,10], Ev.flush [49,10], Ev.read [62,62,62,32],
      Ev.flush [], Ev.promptFound] rfl

/-- C4 counterexample.  The sentinel appended after the command source
(os_backend.py line 151) is not freshly generated per submission: two
distinct submissions carry the same appended token, and the token occurs as
a substring of a source that contains `#uuu`. -/
theorem sentinel_fixed_counterexample :
    (submission_payload [97]).drop 1 = (submission_payload [98]).drop 1
    ∧ ([97] : List Nat) ≠ [98]
    ∧ SENTINEL <:+: ([112,32,35,117,117,117,10] : List Nat) := by decide

/-- C4 as amended.  The token appended after the command source is the fixed
literal `"#uuu"`: the payload is always the source followed by `SENTINEL`,
and the appended token is identical for any two submissions. -/
theorem sentinel_is_fixed_literal :
    ∀ s₁ s₂ : List Nat,
      submission_payload s₁ = s₁ ++ SENTINEL
      ∧ (submission_payload s₁).drop s₁.length = (submission_payload s₂).drop s₂.length := by
  intro s₁ s₂
  refine ⟨rfl, ?_⟩
  show (s₁ ++ SENTINEL).drop s₁.length = (s₂ ++ SENTINEL).drop s₂.length
  rw [List.drop_left, List.drop_left]

/-- C5.  The claim says that when the buffer's tail is a proper prefix of the
prompt marker and bytes that do not continue the marker arrive within the
bounded extra-read window, the whole buffer including the prefix bytes is
flushed, not withheld indefinitely.  The code violates this: on the schedule
`b"a>"` with follow-up `b"x"` (an unrelated byte, delivered within the
window) and an idle device afterwards, nothing is ever flushed and the loop
never returns, for any number of iterations — the unrelated follow-up is
appended and withheld, awaiting further data that never comes.  The last
conjunct shows the first chunk's tail did overlap the marker. -/
theorem overlap_unrelated_followup_withheld_indefinitely :
    ∀ fuel : Nat,
      flushesOf (run fuel [] [[97,62],[120]] []).1 = []
      ∧ (run fuel [] [[97,62],[120]] []).2 = false
      ∧ ends_overlap [97,62] NORMAL_PROMPT = true := by
  intro fuel
  refine ⟨?_, ?_, by decide⟩
  · cases fuel with
    | zero => rfl
    | succ n => exact (run_idle n [97,62,120] []).2
  · cases fuel with
    | zero => rfl
    | succ n => exact (run_idle n [97,62,120] []).1

/-- C6 (code bug evidence).  A submission step whose awaited token never
arrives fails with the transport's timeout error, not with a `ProtocolError`
carrying the observed bytes: first conjunct — the paste-mode banner never
arrives (empty stream); second conjunct — the echo is altered
(`b"#uu"` instead of `b"#uuu"` after the banner), so the echo wait times out.
`_execute_with_consumer` installs no handler that could convert either
failure into the `ProtocolError` promised by its docstring, and the error
type modelled from the transport contract has no such constructor to raise. -/
theorem execute_failure_is_transport_timeout :
    execute_with_consumer [112,114,105,110,116,40,49,41,10] [] = Except.error ExecError.timeout
    ∧ execute_with_consumer [112] [61,61,61,32,112,35,117,117]
        = Except.error ExecError.timeout := ⟨rfl, rfl⟩

/-- C7 counterexample.  On a concrete successful submission the whole trace
of `_execute_with_consumer` contains no side-command servicing and no
short-timeout soft read at all: the output-collection phase is the single
blocking `read_until` of the prompt marker visible in the trace, so it is not
the section-4.4 multiplexer loop the claim describes. -/
theorem execute_collection_has_no_services_or_soft_reads :
    execute_with_consumer [112] [61,61,61,32,35,117,117,117,10,49,10,62,62,62,32]
      = Except.ok
        [Ev.write [5], Ev.readUntil [61,61,61,32] [61,61,61,32],
         Ev.write [112,35,117,117,117], Ev.readUntil [35,117,117,117] [35,117,117,117],
         Ev.write [4], Ev.readUntil [10] [10],
         Ev.readUntil [62,62,62,32] [49,10,62,62,62,32], Ev.flush [49,10]]
    ∧ servicesOf
        [Ev.write [5], Ev.readUntil [61,61,61,32] [61,61,61,32],
         Ev.write [112,35,117,117,117], Ev.readUntil [35,117,117,117] [35,117,117,117],
         Ev.write [4], Ev.readUntil [10] [10],
         Ev.readUntil [62,62,62,32] [49,10,62,62,62,32], Ev.flush [49,10]] = []
    ∧ readsOf
        [Ev.write [5], Ev.readUntil [61,61,61,32] [61,61,61,32],
         Ev.write [112,35,117,117,117], Ev.readUntil [35,117,117,117] [35,117,117,117],
         Ev.write [4], Ev.readUntil [10] [10],
         Ev.readUntil [62,62,62,32] [49,10,62,62,62,32], Ev.flush [49,10]] = [] :=
  ⟨rfl, rfl, rfl⟩

/-- C7 as amended.  After the end-of-transmission acknowledgement,
`_execute_with_consumer` collects the output with a single blocking
`read_until` up to the prompt marker — not with the section-4.4 multiplexer
loop: every successful trace services no side command, performs no
short-timeout soft read, and consists of exactly the three writes, the three
acknowledgement waits, the one blocking collection read and the one consumer
call with the marker stripped. -/
theorem execute_collection_single_blocking_read :
    ∀ (script stream : List Nat) (tr : List Ev),
      execute_with_consumer script stream = Except.ok tr →
      servicesOf tr = [] ∧ readsOf tr = []
      ∧ ∃ t1 t2 t3 pre,
          tr = [Ev.write PASTE_MODE_CMD, Ev.readUntil PASTE_MODE_BANNER t1,
                Ev.write (submission_payload script), Ev.readUntil SENTINEL t2,
                Ev.write EOT, Ev.readUntil LF t3,
                Ev.readUntil NORMAL_PROMPT (pre ++ NORMAL_PROMPT), Ev.flush pre] := by
  intro script stream tr h
  obtain ⟨t1, t2, t3, pre, htr⟩ := execute_ok_shape script stream tr h
  subst htr
  exact ⟨rfl, rfl, t1, t2, t3, pre, rfl⟩

/-- Witness for C7's amended statement on a concrete successful submission. -/
theorem execute_collection_single_blocking_read_witness :
    servicesOf
      [Ev.write [5], Ev.readUntil [61,61,61,32] [61,61,61,32],
       Ev.write [115,35,117,117,117], Ev.readUntil [35,117,117,117] [35,117,117,117],
       Ev.write [4], Ev.readUntil [10] [10],
       Ev.readUntil [62,62,62,32] [51,10,62,62,62,32], Ev.flush [51,10]] = []
    ∧ readsOf
      [Ev.write [5], Ev.readUntil [61,61,61,32] [61,61,61,32],
       Ev.write [115,35,117,117,117], Ev.readUntil [35,117,117,117] [35,117,117,117],
       Ev.write [4], Ev.readUntil [10] [10],
       Ev.readUntil [62,62,62,32] [51,10,62,62,62,32], Ev.flush [51,10]] = []
    ∧ ∃ t1 t2 t3 pre,
        [Ev.write [5], Ev.readUntil [61,61,61,32] [61,61,61,32],
         Ev.write [115,35,117,117,117], Ev.readUntil [35,117,117,117] [35,117,117,117],
         Ev.write [4], Ev.readUntil [10] [10],
         Ev.readUntil [62,62,62,32] [51,10,62,62,62,32], Ev.flush [51,10]]
          = [Ev.write PASTE_MODE_CMD, Ev.readUntil PASTE_MODE_BANNER t1,
             Ev.write (submission_payload [115]), Ev.readUntil SENTINEL t2,
             Ev.write EOT, Ev.readUntil LF t3,
             Ev.readUntil NORMAL_PROMPT (pre ++ NORMAL_PROMPT), Ev.flush pre] :=
  execute_collection_single_blocking_read [115]
    [61,61,61,32,35,117,117,117,10,51,10,62,62,62,32]
    [Ev.write [5], Ev.readUntil [61,61,61,32] [61,61,61,32],
     Ev.write [115,35,117,117,117], Ev.readUntil [35,117,117,117] [35,117,117,117],
     Ev.write [4], Ev.readUntil [10] [10],
     Ev.readUntil [62,62,62,32] [51,10,62,62,62,32], Ev.flush [51,10]] rfl

/-- C8.  In every iteration of the read loop the pending side commands are
serviced first: the trace of any non-zero-fuel run begins with the service
events of all requests pending at the first check, followed by the read
attempt (and hence before any flush of that or a later iteration).  And no
request is ever lost on an idle device: when `soft_read_until` returns empty
on every iteration, the serviced requests are exactly the scheduled ones,
one schedule slot per iteration, because the check re-runs at the top of
every iteration. -/
theorem side_commands_serviced_before_read_and_not_lost :
    (∀ (fuel : Nat) (pending : List Nat) (reads : List (List Nat)) (rs : List Nat)
        (rest : List (List Nat)),
      ((run (fuel+1) pending reads (rs :: rest)).1).take (rs.length + 1)
        = rs.map Ev.service ++ [Ev.read (nextChunk reads)])
    ∧ ∀ (fuel : Nat) (pending : List Nat) (sides : List (List Nat)),
        servicesOf (run fuel pending [] sides).1 = (sides.take fuel).flatten := by
  constructor
  · intro fuel pending reads rs rest
    obtain ⟨tl, htl⟩ := run_succ_shape fuel pending reads (rs :: rest)
    rw [htl]
    show ((rs.map Ev.service) ++ Ev.read (nextChunk reads) :: tl).take (rs.length + 1) = _
    rw [show rs.length = (rs.map Ev.service).length by rw [List.length_map],
      List.take_append]
    simp
  · exact fun fuel => run_idle_services fuel

/-- C9 counterexample.  In `_cmd_Run` (transport closed and replaced), the
banner text emitted before the next real prompt — here the line `b"hi\n"` —
is delivered to the sink (`_send_output` is the output consumer, line 230),
contradicting the claim that it is discarded entirely and not delivered to
any sink. -/
theorem cmd_run_delivers_banner_to_sink :
    (cmd_Run 3 [[104,105,10],[62,62,62,32]] [] [119]).sink = [[104,105,10],[]]
    ∧ ([104,105,10] : List Nat) ≠ [] :=
  ⟨rfl, by decide⟩

/-- C9 as amended.  On attach, `_process_until_initial_prompt` captures the
banner as the welcome text and delivers nothing to the sink; on Run, after
closing and replacing the transport, `_cmd_Run` forwards the banner to the
sink as stdout output and, once the forward loop returns, follows it with a
`HideTrailingOutput` event carrying the original welcome text (so the UI can
suppress it), then prepares the helpers. -/
theorem attach_discards_banner_run_forwards_then_hides :
    ∀ (fuel : Nat) (reads sides : List (List Nat)) (w : List Nat),
      (process_until_initial_prompt fuel reads sides).sinkDeliveries = []
      ∧ (cmd_Run fuel reads sides w).sink = flushesOf (run fuel [] reads sides).1
      ∧ ((run fuel [] reads sides).2 = true →
          (cmd_Run fuel reads sides w).events
            = [Ev.closeConnection, Ev.createConnection] ++ (run fuel [] reads sides).1
                ++ [Ev.hideTrailingOutput w, Ev.prepareHelpers, Ev.updateCwd]) := by
  intro fuel reads sides w
  refine ⟨rfl, rfl, fun h => ?_⟩
  simp [cmd_Run, h]

/-- Witness for C9's amended statement on a concrete banner followed by the
prompt. -/
theorem attach_discards_banner_run_forwards_then_hides_witness :
    (cmd_Run 3 [[104,105,10],[62,62,62,32]] [] [119]).events
      = [Ev.closeConnection, Ev.createConnection]
          ++ (run 3 [] [[104,105,10],[62,62,62,32]] []).1
          ++ [Ev.hideTrailingOutput [119], Ev.prepareHelpers, Ev.updateCwd] :=
  (attach_discards_banner_run_forwards_then_hides 3 [[104,105,10],[62,62,62,32]] [] [119]).2.2
    rfl

/-- C10.  At the prompt boundary the output consumer is invoked exactly once
with the bytes preceding the marker, marker stripped: the boundary verdict on
a buffer `pre ++ NORMAL_PROMPT` carries exactly `pre`; every successful
`_execute_with_consumer` run makes exactly one consumer call, whose payload is
the collection read's bytes with the marker stripped; and when the prompt
arrives with no preceding unflushed output the terminal consumer call
delivers the empty chunk. -/
theorem terminal_flush_strips_prompt_marker :
    (∀ pre : List Nat, classify (pre ++ NORMAL_PROMPT) = Classification.boundary pre)
    ∧ (∀ (script stream : List Nat) (tr : List Ev),
        execute_with_consumer script stream = Except.ok tr →
        ∃ pre, flushesOf tr = [pre]
          ∧ Ev.readUntil NORMAL_PROMPT (pre ++ NORMAL_PROMPT) ∈ tr)
    ∧ flushesOf (run 1 [] [[62,62,62,32]] []).1 = [[]]
    ∧ (run 1 [] [[62,62,62,32]] []).2 = true := by
  refine ⟨classify_append_prompt, ?_, rfl, rfl⟩
  intro script stream tr h
  obtain ⟨t1, t2, t3, pre, htr⟩ := execute_ok_shape script stream tr h
  subst htr
  exact ⟨pre, rfl, by simp⟩

/-- Witness for C10 at concrete inputs: a buffer `b"b>>> "` classifies as the
boundary with output `b"b"`, and a concrete successful submission has exactly
one consumer call. -/
theorem terminal_flush_strips_prompt_marker_witness :
    classify ([98] ++ NORMAL_PROMPT) = Classification.boundary [98]
    ∧ ∃ pre, flushesOf
        [Ev.write [5], Ev.readUntil [61,61,61,32] [61,61,61,32],
         Ev.write [113,35,117,117,117], Ev.readUntil [35,117,117,117] [35,117,117,117],
         Ev.write [4], Ev.readUntil [10] [10],
         Ev.readUntil [62,62,62,32] [50,10,62,62,62,32], Ev.flush [50,10]] = [pre]
        ∧ Ev.readUntil NORMAL_PROMPT (pre ++ NORMAL_PROMPT) ∈
          [Ev.write [5], Ev.readUntil [61,61,61,32] [61,61,61,32],
           Ev.write [113,35,117,117,117], Ev.readUntil [35,117,117,117] [35,117,117,117],
           Ev.write [4], Ev.readUntil [10] [10],
           Ev.readUntil [62,62,62,32] [50,10,62,62,62,32], Ev.flush [50,10]] :=
  ⟨terminal_flush_strips_prompt_marker.1 [98],
   terminal_flush_strips_prompt_marker.2.1 [113]
     [61,61,61,32,35,117,117,117,10,50,10,62,62,62,32]
     [Ev.write [5], Ev.readUntil [61,61,61,32] [61,61,61,32],
      Ev.write [113,35,117,117,117], Ev.readUntil [35,117,117,117] [35,117,117,117],
      Ev.write [4], Ev.readUntil [10] [10],
      Ev.readUntil [62,62,62,32] [50,10,62,62,62,32], Ev.flush [50,10]] rfl⟩

end ThonnyOs
